import Mathlib

/-
Verification of the fred job-orchestration core against its specification.

Shallow embedding of the Python source:
  - src/app/db/models.py        (Job record, JobStatus enum)
  - src/app/core/identities.py  (identity catalog: discovery, snapshot, refresh)
  - src/app/api/routes.py       (create_job enqueue endpoint)
  - src/app/workers/xnemo_runner.py   (XNemoRunner.generate)
  - src/app/workers/seedvc_runner.py  (SeedVCRunner.convert)
  - src/app/workers/job_worker.py     (dispatcher loop, sequential and
    parallel pipeline runners)

Conventions of the embedding:
  - A Python exception escaping a function is modelled as Except.error with
    the exception message; a normal return is Except.ok.
  - The database row for a job is the Job structure; a commit is modelled by
    appending the new row state to a trace of persisted states.
  - The external subprocess run by an adapter is abstracted as a ProcOutcome
    (exit code, stdout marker content, stderr text, whether the declared
    output file exists afterwards, or a wall-clock timeout).
  - datetimes are Nat tick counts; updated_at is not modelled (no claim
    mentions it).
-/

set_option maxHeartbeats 1000000

namespace Fred

/-- Job status enum, from src/app/db/models.py (class JobStatus). -/
inductive JobStatus where
  | pending
  | processing
  | completed
  | failed
deriving DecidableEq

/-- One row of the jobs table, from src/app/db/models.py (class Job).
The columns updated_at is omitted (no claim depends on it); created_at is a
Nat tick. -/
structure Job where
  id : Nat
  user_video : String
  identity_id : String
  identity_image : String
  status : JobStatus
  progress : Nat
  output_video : Option String
  error : Option String
  created_at : Nat
deriving DecidableEq

/-- Boolean test used by the dispatcher query filter
(Job.status == JobStatus.PENDING in job_worker.main). -/
def isPending (j : Job) : Bool :=
  match j.status with
  | .pending => true
  | _ => false

/-- Selection of the row with minimal created_at, modelling
order_by(Job.created_at).first() applied to the pending rows; on equal
created_at the earlier row in table order is kept. -/
def selectMinCreated : List Job → Option Job
  | [] => none
  | j :: rest =>
    match selectMinCreated rest with
    | none => some j
    | some b => if b.created_at < j.created_at then some b else some j

/-- The query in job_worker.main:
db.query(Job).filter(Job.status == JobStatus.PENDING)
  .order_by(Job.created_at).first(). -/
def workerSelect (db : List Job) : Option Job :=
  selectMinCreated (db.filter isPending)

/-- One pass of the claim phase of job_worker.main's loop body: the query is
a pure read and the session is closed without any UPDATE, so the store comes
back unchanged; the transition to Processing only happens later, inside
process_job, in a separate transaction. -/
def dispatcherClaimStep (db : List Job) : Option Job × List Job :=
  (workerSelect db, db)

/-- A concrete pending job used by concrete counterexamples. -/
def jobA : Job :=
  { id := 1
    user_video := "v.mp4"
    identity_id := "persona_a"
    identity_image := "face1.jpg"
    status := .pending
    progress := 0
    output_video := none
    error := none
    created_at := 100 }

/-- The parsed content of the optional __RESULT_JSON__ marker emitted on the
subprocess stdout (fields read by the runners: "success" and "output"). -/
structure MarkerJson where
  success : Bool
  output : Option String
deriving DecidableEq

/-- Captured stdout of a stage subprocess, abstracted to the only feature the
runners inspect: whether a parseable __RESULT_JSON__ marker is present and
what it contains. -/
structure StdOut where
  marker : Option MarkerJson
deriving DecidableEq

/-- Outcome of one external stage subprocess (subprocess.run in the runners):
either it finished with an exit code, captured output and a fact of the
matter about whether the declared output file now exists, or it hit the
wall-clock timeout (subprocess.TimeoutExpired). -/
inductive ProcOutcome where
  | completed (exitCode : Int) (stdout : StdOut) (stderr : String) (outputExists : Bool)
  | timedOut
deriving DecidableEq

/-- Message of the RuntimeError raised by XNemoRunner.generate on timeout. -/
def xnemoTimeoutMsg (timeout : Nat) : String :=
  "X-Nemo timed out after " ++ toString timeout ++ " seconds"

/-- Message of the RuntimeError raised by XNemoRunner.generate on a non-zero
exit code. -/
def xnemoExitFailMsg (code : Int) (stderr : String) : String :=
  "X-Nemo failed with code " ++ toString code ++ ": " ++ stderr

/-- Message of the RuntimeError raised by XNemoRunner.generate when the exit
code is zero but neither the marker nor the output file indicates success. -/
def xnemoMissingMsg (output_path : String) : String :=
  "X-Nemo completed but output not found: " ++ output_path

/-- Message of the RuntimeError raised by SeedVCRunner.convert on timeout. -/
def seedvcTimeoutMsg (timeout : Nat) : String :=
  "Seed-VC timed out after " ++ toString timeout ++ " seconds"

/-- Message of the RuntimeError raised by SeedVCRunner.convert on a non-zero
exit code. -/
def seedvcExitFailMsg (code : Int) (stderr : String) : String :=
  "Seed-VC failed with code " ++ toString code ++ ": " ++ stderr

/-- Message of the RuntimeError raised by SeedVCRunner.convert when the exit
code is zero but neither the marker nor the output file indicates success. -/
def seedvcMissingMsg (output_path : String) : String :=
  "Seed-VC completed but output not found: " ++ output_path

/-- XNemoRunner.generate from src/app/workers/xnemo_runner.py, lines 139-176.
Except.error models a RuntimeError escaping generate.  On exit code 0 the
source first honours a success-indicating marker, otherwise falls through to
the output-file existence check, and only then raises the missing-output
error; a marker whose success field is false does NOT short-circuit to a
failure. -/
def XNemoRunner.generate (output_path : String) (timeout : Nat)
    (o : ProcOutcome) : Except String String :=
  match o with
  | .timedOut => .error (xnemoTimeoutMsg timeout)
  | .completed code out stderr outputExists =>
    if code ≠ 0 then
      .error (xnemoExitFailMsg code stderr)
    else
      match out.marker with
      | some r =>
        if r.success then .ok (r.output.getD output_path)
        else if outputExists then .ok output_path
        else .error (xnemoMissingMsg output_path)
      | none =>
        if outputExists then .ok output_path
        else .error (xnemoMissingMsg output_path)

/-- SeedVCRunner.convert from src/app/workers/seedvc_runner.py, lines
127-164; identical result-handling shape to XNemoRunner.generate. -/
def SeedVCRunner.convert (output_path : String) (timeout : Nat)
    (o : ProcOutcome) : Except String String :=
  match o with
  | .timedOut => .error (seedvcTimeoutMsg timeout)
  | .completed code out stderr outputExists =>
    if code ≠ 0 then
      .error (seedvcExitFailMsg code stderr)
    else
      match out.marker with
      | some r =>
        if r.success then .ok (r.output.getD output_path)
        else if outputExists then .ok output_path
        else .error (seedvcMissingMsg output_path)
      | none =>
        if outputExists then .ok output_path
        else .error (seedvcMissingMsg output_path)

/-- True when the stdout marker is present and declares success
(result_data.get("success") truthy in the source). -/
def markerSaysSuccess (st : StdOut) : Bool :=
  match st.marker with
  | some r => r.success
  | none => false

/-- In this embedding, an Except.error result of an adapter is a RuntimeError
propagating past the adapter boundary. -/
def raisesException (r : Except String String) : Bool :=
  match r with
  | .error _ => true
  | .ok _ => false

/-- The external condition under which XNemoRunner.generate /
SeedVCRunner.convert raise: timeout, non-zero exit, or zero exit with
neither a success marker nor an existing output file. -/
def stageInvocationFails (o : ProcOutcome) : Prop :=
  match o with
  | .timedOut => True
  | .completed code st _ outputExists =>
    code ≠ 0 ∨ (markerSaysSuccess st = false ∧ outputExists = false)

/-- Boolean prefix test on strings, via the underlying character lists; used
to state that an error message carries the timeout indicator. -/
def strStartsWith (p s : String) : Bool :=
  decide (p.data = s.data.take p.data.length)

/-- The timeout indicator of Stage A failures: the message opens with the
fixed timed-out phrase of xnemoTimeoutMsg. -/
def isXNemoTimeoutIndicator (s : String) : Bool :=
  strStartsWith "X-Nemo timed out after " s

/-- The timeout indicator of Stage B failures. -/
def isSeedVCTimeoutIndicator (s : String) : Bool :=
  strStartsWith "Seed-VC timed out after " s

/-- Default SHARED_DATA_PATH base, from job_worker.py configuration. -/
def SHARED_DATA_PATH : String := "shared_data"

/-- Environment of one run of process_job: the outcomes of the external
collaborators the job touches.  validate models validate_paths (error =
FileNotFoundError message), extract models the ffmpeg audio extraction
inside run_seedvc_task (error = the RuntimeError message), combine models
combine_video_audio's ffmpeg call, and the two ProcOutcome fields are the
stage subprocesses.  Store commits are assumed to succeed (StoreFailure is
out of the embedding). -/
structure StageEnv where
  xnemoOutcome : ProcOutcome
  seedvcOutcome : ProcOutcome
  validate : Except String Unit
  extract : Except String Unit
  combine : Except String Unit

/-- run_xnemo_task from job_worker.py lines 98-129: builds the temp output
path, invokes XNemoRunner.generate with default timeout 1800, and on success
returns the output path (the generate return value is logged, not used). -/
def run_xnemo_task (env : StageEnv) (jobId : Nat) : Except String String :=
  let output_video := SHARED_DATA_PATH ++ "/temp/" ++ toString jobId ++ "_xnemo.mp4"
  match XNemoRunner.generate output_video 1800 env.xnemoOutcome with
  | .error e => .error e
  | .ok _ => .ok output_video

/-- run_seedvc_task from job_worker.py lines 132-168, paired with the number
of SeedVCRunner.convert invocations it performed: the ffmpeg audio
extraction runs first and a RuntimeError there prevents the Seed-VC adapter
from ever being invoked. -/
def run_seedvc_task (env : StageEnv) (jobId : Nat) :
    Except String String × Nat :=
  match env.extract with
  | .error e => (.error e, 0)
  | .ok _ =>
    let output_audio := SHARED_DATA_PATH ++ "/temp/" ++ toString jobId ++ "_converted.wav"
    match SeedVCRunner.convert output_audio 1800 env.seedvcOutcome with
    | .error e => (.error e, 1)
    | .ok _ => (.ok output_audio, 1)

/-- The terminal success commit of process_job_* (job_worker.py lines
269-274 and 356-360): sets output_video, status COMPLETED and progress 100
unconditionally — the current status is not checked. -/
def markCompleted (j : Job) : Job :=
  { j with
    output_video := some (toString j.id ++ ".mp4")
    status := .completed
    progress := 100 }

/-- The except-handler commit of process_job_* (job_worker.py lines 279-285
and 365-371): sets status FAILED and error unconditionally — the current
status is not checked and output_video is left as it was. -/
def markFailed (msg : String) (j : Job) : Job :=
  { j with status := .failed, error := some msg }

/-- Result of one process_job_* run: the persisted row states in commit
order (starting from the row as it was when the run began), the final row,
and how many times each stage adapter was invoked. -/
structure RunResult where
  trace : List Job
  final : Job
  xnemoCalls : Nat
  seedvcCalls : Nat

/-- process_job_sequential from job_worker.py lines 230-287.  Commits, in
order: Processing/5, progress 10, 50, 85, 95, then the completed commit; any
escaping exception lands in the except handler which commits markFailed on
the current row. -/
def process_job_sequential (env : StageEnv) (j0 : Job) : RunResult :=
  let j1 := { j0 with status := JobStatus.processing, progress := 5 }
  match env.validate with
  | .error e =>
    { trace := [j0, j1, markFailed e j1], final := markFailed e j1
      xnemoCalls := 0, seedvcCalls := 0 }
  | .ok _ =>
    let j2 := { j1 with progress := 10 }
    match run_xnemo_task env j0.id with
    | .error e =>
      { trace := [j0, j1, j2, markFailed e j2], final := markFailed e j2
        xnemoCalls := 1, seedvcCalls := 0 }
    | .ok _ =>
      let j3 := { j2 with progress := 50 }
      match run_seedvc_task env j0.id with
      | (.error e, sc) =>
        { trace := [j0, j1, j2, j3, markFailed e j3], final := markFailed e j3
          xnemoCalls := 1, seedvcCalls := sc }
      | (.ok _, sc) =>
        let j4 := { j3 with progress := 85 }
        match env.combine with
        | .error e =>
          { trace := [j0, j1, j2, j3, j4, markFailed e j4]
            final := markFailed e j4, xnemoCalls := 1, seedvcCalls := sc }
        | .ok _ =>
          let j5 := { j4 with progress := 95 }
          let jDone := markCompleted j5
          { trace := [j0, j1, j2, j3, j4, j5, jDone], final := jDone
            xnemoCalls := 1, seedvcCalls := sc }

/-- Order in which concurrent.futures.as_completed yields the two stage
futures in process_job_parallel. -/
inductive Arrival where
  | xnemoFirst
  | seedvcFirst
deriving DecidableEq

/-- str.join of the except-handler aggregation
(RuntimeError("; ".join(errors)) in process_job_parallel). -/
def joinSep (sep : String) : List String → String
  | [] => ""
  | [e] => e
  | e :: rest => e ++ sep ++ joinSep sep rest

/-- One iteration of the as_completed loop in process_job_parallel lines
334-346: a successful future commits its fixed checkpoint (50 for xnemo, 70
for seedvc) on the current row; a failed future appends "name: msg" to the
errors list and commits nothing. -/
def parallelHandle (item : String × Except String String × Nat)
    (acc : List Job × Job × List String) : List Job × Job × List String :=
  let (commits, cur, errs) := acc
  match item.2.1 with
  | .ok _ =>
    let nj := { cur with progress := item.2.2 }
    (commits ++ [nj], nj, errs)
  | .error e => (commits, cur, errs ++ [item.1 ++ ": " ++ e])

/-- process_job_parallel from job_worker.py lines 290-373.  Both stage tasks
are submitted to the pool and both run to completion; their results are
consumed in as_completed arrival order.  Commit checkpoints: Processing/5,
10, per-stage 50/70 in arrival order, then 85 and the completed commit, or
the markFailed commit from the except handler. -/
def process_job_parallel (env : StageEnv) (order : Arrival) (j0 : Job) :
    RunResult :=
  let j1 := { j0 with status := JobStatus.processing, progress := 5 }
  match env.validate with
  | .error e =>
    { trace := [j0, j1, markFailed e j1], final := markFailed e j1
      xnemoCalls := 0, seedvcCalls := 0 }
  | .ok _ =>
    let j2 := { j1 with progress := 10 }
    let xr := run_xnemo_task env j0.id
    let srp := run_seedvc_task env j0.id
    let items : List (String × Except String String × Nat) :=
      match order with
      | .xnemoFirst => [("xnemo", xr, 50), ("seedvc", srp.1, 70)]
      | .seedvcFirst => [("seedvc", srp.1, 70), ("xnemo", xr, 50)]
    match items.foldl (fun acc it => parallelHandle it acc) ([], j2, []) with
    | (commits, cur, errs) =>
      let base := [j0, j1, j2] ++ commits
      match errs with
      | e0 :: es =>
        let e := joinSep "; " (e0 :: es)
        { trace := base ++ [markFailed e cur], final := markFailed e cur
          xnemoCalls := 1, seedvcCalls := srp.2 }
      | [] =>
        let j3 := { cur with progress := 85 }
        match env.combine with
        | .error e =>
          { trace := base ++ [j3, markFailed e j3], final := markFailed e j3
            xnemoCalls := 1, seedvcCalls := srp.2 }
        | .ok _ =>
          let jDone := markCompleted j3
          { trace := base ++ [j3, jDone], final := jDone
            xnemoCalls := 1, seedvcCalls := srp.2 }

/-- process_job from job_worker.py lines 376-381: mode selection by the
EXECUTION_MODE configuration string. -/
def process_job (mode : String) (env : StageEnv) (order : Arrival)
    (j0 : Job) : RunResult :=
  if mode = "parallel" then process_job_parallel env order j0
  else process_job_sequential env j0

/-- Decidable check that a progress sequence never decreases. -/
def progressNonDecreasing : List Nat → Bool
  | [] => true
  | [_] => true
  | a :: b :: rest => a ≤ b && progressNonDecreasing (b :: rest)

/-- A directory entry inside one identity folder, as os.listdir plus
os.path.isfile report it. -/
structure FileEntry where
  name : String
  isFile : Bool
deriving DecidableEq

/-- An entry of the identities base directory: a candidate identity folder
with its contents. -/
structure DirEntry where
  name : String
  isDir : Bool
  files : List FileEntry
deriving DecidableEq

/-- The identities base directory on disk; none models a missing
IDENTITIES_PATH (os.path.exists false in _discover_identities). -/
def Disk : Type := Option (List DirEntry)

/-- IMAGE_EXTENSIONS from src/app/core/identities.py. -/
def IMAGE_EXTENSIONS : List String := [".jpg", ".jpeg", ".png", ".webp"]

/-- AUDIO_EXTENSIONS from src/app/core/identities.py. -/
def AUDIO_EXTENSIONS : List String := [".wav", ".mp3", ".flac", ".m4a"]

/-- Index of the last dot of a character list, if any. -/
def lastDotIdx : List Char → Option Nat
  | [] => none
  | c :: rest =>
    match lastDotIdx rest with
    | some i => some (i + 1)
    | none => if c = '.' then some 0 else none

/-- Number of leading dots of a character list. -/
def countLeadingDots : List Char → Nat
  | [] => 0
  | c :: rest => if c = '.' then countLeadingDots rest + 1 else 0

/-- The extension part of os.path.splitext on a plain file name: everything
from the last dot on, except that dots inside the leading run of dots never
start an extension (so ".hidden" has no extension). -/
def splitextExt (s : String) : String :=
  let cs := s.data
  match lastDotIdx cs with
  | none => ""
  | some d => if countLeadingDots cs ≤ d then String.mk (cs.drop d) else ""

/-- The lowercased extension, as identities.py computes it
(os.path.splitext(filename)[1].lower()). -/
def splitextExtLower (s : String) : String :=
  String.mk ((splitextExt s).data.map Char.toLower)

/-- Lexicographic comparison of character lists by code point, the order
Python's sorted() uses on file names. -/
def strLtChars : List Char → List Char → Bool
  | [], [] => false
  | [], _ :: _ => true
  | _ :: _, [] => false
  | a :: as, b :: bs =>
    if a.toNat < b.toNat then true
    else if b.toNat < a.toNat then false
    else strLtChars as bs

/-- Lexicographic string comparison by code point. -/
def strLt (a b : String) : Bool := strLtChars a.data b.data

/-- Insertion step of sorting directory listings by name, modelling
sorted(os.listdir(...)). -/
def insertByName (f : FileEntry) : List FileEntry → List FileEntry
  | [] => [f]
  | g :: rest =>
    if strLt g.name f.name then g :: insertByName f rest else f :: g :: rest

/-- Sort a directory listing by file name. -/
def sortFilesByName : List FileEntry → List FileEntry
  | [] => []
  | f :: rest => insertByName f (sortFilesByName rest)

/-- Single-character replacement, modelling str.replace with a one-character
pattern as used for display names ("_" and "-" to spaces). -/
def charReplace (a b : Char) (s : String) : String :=
  String.mk (s.data.map (fun c => if c = a then b else c))

/-- str.title() on ASCII text: the first alphabetic character of each
alphabetic run is uppercased, the rest lowercased. -/
def pyTitle (s : String) : String :=
  String.mk
    ((s.data.foldl
      (fun (acc : List Char × Bool) c =>
        if c.isAlpha then
          (acc.1 ++ [if acc.2 then c.toLower else c.toUpper], true)
        else (acc.1 ++ [c], false))
      ([], false)).1)

/-- The per-identity record stored in the IDENTITIES dict
(identities.py lines 76-80). -/
structure IdentityData where
  name : String
  images : List String
  audio : String
deriving DecidableEq

/-- The image/audio collection loop of _discover_identities (identities.py
lines 54-69): walk the sorted listing, keep image-extension files in order,
and remember the first audio-extension file. -/
def collectAssets (files : List FileEntry) : List String × Option String :=
  (sortFilesByName files).foldl
    (fun (acc : List String × Option String) f =>
      if f.isFile = false then acc
      else
        let ext := splitextExtLower f.name
        if ext ∈ IMAGE_EXTENSIONS then (acc.1 ++ [f.name], acc.2)
        else if ext ∈ AUDIO_EXTENSIONS ∧ acc.2 = none then (acc.1, some f.name)
        else acc)
    ([], none)

/-- _discover_identities from src/app/core/identities.py lines 33-82: each
non-hidden subfolder with at least one image and one audio file becomes an
identity keyed by its folder name. -/
def discover_identities (disk : Disk) : List (String × IdentityData) :=
  match disk with
  | none => []
  | some entries =>
    entries.foldl
      (fun acc folder =>
        if folder.isDir = false then acc
        else
          match folder.name.data with
          | [] => acc
          | c0 :: _ =>
            if c0 = '.' then acc
            else
              match collectAssets folder.files with
              | (img0 :: imgs, some audio) =>
                let display :=
                  pyTitle (charReplace '-' ' ' (charReplace '_' ' ' folder.name))
                acc ++ [(folder.name,
                  { name := display, images := img0 :: imgs, audio := audio })]
              | _ => acc)
      []

/-- Association-list lookup in the IDENTITIES dict. -/
def lookupIdentity : List (String × IdentityData) → String → Option IdentityData
  | [], _ => none
  | (k, v) :: rest, key => if k = key then some v else lookupIdentity rest key

/-- The module-level mutable state of identities.py: the IDENTITIES global. -/
structure CatalogState where
  snapshot : List (String × IdentityData)
deriving DecidableEq

/-- Module-load initialisation IDENTITIES = _discover_identities()
(identities.py line 86): the snapshot is taken once, from the disk as it is
at process startup. -/
def startup (disk : Disk) : CatalogState :=
  { snapshot := discover_identities disk }

/-- refresh_identities from identities.py lines 89-93: re-scan the folder
and replace the snapshot. -/
def refresh_identities (disk : Disk) (_s : CatalogState) : CatalogState :=
  { snapshot := discover_identities disk }

/-- get_identity from identities.py lines 108-118, reading only the
snapshot, never the disk. -/
def get_identity (cat : CatalogState) (identity_id : String) :
    Option IdentityData :=
  lookupIdentity cat.snapshot identity_id

/-- Request body of POST /api/jobs (schemas JobCreate). -/
structure JobCreate where
  identity_id : String
  identity_image : String
  user_video : String
deriving DecidableEq

/-- create_job from src/app/api/routes.py lines 62-91.  Validation order as
in the source: identity resolvable in the catalog snapshot, then the chosen
image in that identity's image list, then the uploaded video present in the
uploads directory (modelled as the list of uploaded file names).  An
HTTPException(400) is Except.error with the detail string, raised before any
row is added; on success the new Pending row with progress 0 is committed. -/
def create_job (cat : CatalogState) (uploads : List String) (db : List Job)
    (data : JobCreate) (newId : Nat) (now : Nat) :
    Except String (List Job × Job) :=
  match get_identity cat data.identity_id with
  | none => .error "Invalid identity"
  | some identity =>
    if data.identity_image ∈ identity.images then
      if data.user_video ∈ uploads then
        let job : Job :=
          { id := newId
            user_video := data.user_video
            identity_id := data.identity_id
            identity_image := data.identity_image
            status := .pending
            progress := 0
            output_video := none
            error := none
            created_at := now }
        .ok (db ++ [job], job)
      else .error "Video not found. Upload first."
    else .error "Invalid image for identity"

/-- The job table as it stands after a create_job call: unchanged when the
endpoint raised, the returned table otherwise. -/
def storeAfter (db : List Job) (r : Except String (List Job × Job)) :
    List Job :=
  match r with
  | .ok (db2, _) => db2
  | .error _ => db

/-- Concrete environment in which every collaborator succeeds (both stage
subprocesses exit 0 without a marker and leave their output file behind). -/
def envAllOk : StageEnv :=
  { xnemoOutcome := .completed 0 ⟨none⟩ "" true
    seedvcOutcome := .completed 0 ⟨none⟩ "" true
    validate := .ok ()
    extract := .ok ()
    combine := .ok () }

/-- Concrete environment in which both stage subprocesses fail with non-zero
exit codes and distinct stderr texts. -/
def envBothFail : StageEnv :=
  { xnemoOutcome := .completed 1 ⟨none⟩ "cuda oom" false
    seedvcOutcome := .completed 2 ⟨none⟩ "bad wav" false
    validate := .ok ()
    extract := .ok ()
    combine := .ok () }

/-- Concrete environment in which the Stage A subprocess hits the wall-clock
timeout and everything else would succeed. -/
def envXnemoTimeout : StageEnv :=
  { xnemoOutcome := .timedOut
    seedvcOutcome := .completed 0 ⟨none⟩ "" true
    validate := .ok ()
    extract := .ok ()
    combine := .ok () }

/-- Concrete disk at startup: the identities directory exists but is
empty. -/
def diskEmpty : Disk := some []

/-- Concrete disk after an operator adds persona_b with one face image and
one voice file. -/
def diskWithPersonaB : Disk :=
  some [{ name := "persona_b", isDir := true
          files := [⟨"photo.jpg", true⟩, ⟨"voice.wav", true⟩] }]

/-- Concrete environment in which validate_paths raises FileNotFoundError
(the uploaded video has disappeared). -/
def envValidateFail : StageEnv :=
  { xnemoOutcome := .completed 0 ⟨none⟩ "" true
    seedvcOutcome := .completed 0 ⟨none⟩ "" true
    validate := .error "User video not found: shared_data/uploads/v.mp4"
    extract := .ok ()
    combine := .ok () }

/- ------------------------------------------------------------------ -/
/- Helper lemmas (shared between claim theorems).                      -/
/- ------------------------------------------------------------------ -/

theorem selectMinCreated_mem {l : List Job} {j : Job}
    (h : selectMinCreated l = some j) : j ∈ l := by
  induction l generalizing j with
  | nil => simp [selectMinCreated] at h
  | cons a rest ih =>
    simp only [selectMinCreated] at h
    cases hr : selectMinCreated rest with
    | none => simp [hr] at h; simp [h]
    | some b =>
      simp only [hr] at h
      by_cases hb : b.created_at < a.created_at
      · simp only [if_pos hb, Option.some.injEq] at h
        subst h
        exact List.mem_cons_of_mem a (ih hr)
      · simp only [if_neg hb, Option.some.injEq] at h
        subst h
        exact List.mem_cons_self a rest

theorem selectMinCreated_min {l : List Job} {j : Job}
    (h : selectMinCreated l = some j) :
    ∀ k ∈ l, j.created_at ≤ k.created_at := by
  induction l generalizing j with
  | nil => simp [selectMinCreated] at h
  | cons a rest ih =>
    intro k hk
    simp only [selectMinCreated] at h
    cases hr : selectMinCreated rest with
    | none =>
      simp only [hr, Option.some.injEq] at h
      subst h
      have hrest : rest = [] := by
        cases rest with
        | nil => rfl
        | cons c cs =>
          exfalso
          simp only [selectMinCreated] at hr
          cases hcs : selectMinCreated cs with
          | none => simp [hcs] at hr
          | some d => simp [hcs] at hr; split at hr <;> simp_all
      subst hrest
      simp at hk
      simp [hk]
    | some b =>
      simp only [hr] at h
      rcases List.mem_cons.mp hk with hka | hkr
      · subst hka
        by_cases hb : b.created_at < k.created_at
        · simp only [if_pos hb, Option.some.injEq] at h
          subst h
          exact Nat.le_of_lt hb
        · simp only [if_neg hb, Option.some.injEq] at h
          subst h
          exact Nat.le_refl _
      · by_cases hb : b.created_at < a.created_at
        · simp only [if_pos hb, Option.some.injEq] at h
          subst h
          exact ih hr k hkr
        · simp only [if_neg hb, Option.some.injEq] at h
          subst h
          exact Nat.le_trans (Nat.le_of_not_lt hb) (ih hr k hkr)

theorem workerSelect_pending {db : List Job} {j : Job}
    (h : workerSelect db = some j) :
    j ∈ db ∧ j.status = .pending := by
  have hm := selectMinCreated_mem h
  have hmem := List.mem_filter.mp hm
  refine ⟨hmem.1, ?_⟩
  have := hmem.2
  unfold isPending at this
  cases hs : j.status <;> simp [hs] at this ⊢

theorem workerSelect_oldest {db : List Job} {j : Job}
    (h : workerSelect db = some j) :
    ∀ k ∈ db, k.status = .pending → j.created_at ≤ k.created_at := by
  intro k hk hkp
  refine selectMinCreated_min h k (List.mem_filter.mpr ⟨hk, ?_⟩)
  simp [isPending, hkp]

theorem strStartsWith_append (p x : String) :
    strStartsWith p (p ++ x) = true := by
  simp [strStartsWith, String.data_append, List.take_left]

theorem strStartsWith_of_ne_take {p q : String} (x : String)
    (hlen : p.data.length ≤ q.data.length)
    (hne : p.data ≠ q.data.take p.data.length) :
    strStartsWith p (q ++ x) = false := by
  simp only [strStartsWith, String.data_append, decide_eq_false_iff_not]
  rw [List.take_append_of_le_length hlen]
  exact hne

theorem xnemoTimeoutMsg_indicator (t : Nat) :
    isXNemoTimeoutIndicator (xnemoTimeoutMsg t) = true := by
  have h := strStartsWith_append "X-Nemo timed out after "
    (toString t ++ " seconds")
  simpa [isXNemoTimeoutIndicator, xnemoTimeoutMsg, String.append_assoc] using h

theorem xnemoExitFailMsg_not_indicator (c : Int) (stderr : String) :
    isXNemoTimeoutIndicator (xnemoExitFailMsg c stderr) = false := by
  have h := strStartsWith_of_ne_take (p := "X-Nemo timed out after ")
    (q := "X-Nemo failed with code ") (toString c ++ (": " ++ stderr))
    (by decide) (by decide)
  simpa [isXNemoTimeoutIndicator, xnemoExitFailMsg, String.append_assoc] using h

theorem seedvcTimeoutMsg_indicator (t : Nat) :
    isSeedVCTimeoutIndicator (seedvcTimeoutMsg t) = true := by
  have h := strStartsWith_append "Seed-VC timed out after "
    (toString t ++ " seconds")
  simpa [isSeedVCTimeoutIndicator, seedvcTimeoutMsg, String.append_assoc] using h

theorem seedvcExitFailMsg_not_indicator (c : Int) (stderr : String) :
    isSeedVCTimeoutIndicator (seedvcExitFailMsg c stderr) = false := by
  have h := strStartsWith_of_ne_take (p := "Seed-VC timed out after ")
    (q := "Seed-VC failed with code ") (toString c ++ (": " ++ stderr))
    (by decide) (by decide)
  simpa [isSeedVCTimeoutIndicator, seedvcExitFailMsg, String.append_assoc] using h

theorem create_job_no_identity {cat : CatalogState} {uploads : List String}
    {db : List Job} {d : JobCreate} {newId now : Nat}
    (h : get_identity cat d.identity_id = none) :
    create_job cat uploads db d newId now = .error "Invalid identity" := by
  simp [create_job, h]

theorem create_job_bad_image {cat : CatalogState} {uploads : List String}
    {db : List Job} {d : JobCreate} {newId now : Nat} {idd : IdentityData}
    (h : get_identity cat d.identity_id = some idd)
    (hi : d.identity_image ∉ idd.images) :
    create_job cat uploads db d newId now = .error "Invalid image for identity" := by
  simp [create_job, h, hi]

theorem create_job_bad_video {cat : CatalogState} {uploads : List String}
    {db : List Job} {d : JobCreate} {newId now : Nat} {idd : IdentityData}
    (h : get_identity cat d.identity_id = some idd)
    (hi : d.identity_image ∈ idd.images)
    (hv : d.user_video ∉ uploads) :
    create_job cat uploads db d newId now = .error "Video not found. Upload first." := by
  simp [create_job, h, hi, hv]

theorem create_job_ok {cat : CatalogState} {uploads : List String}
    {db : List Job} {d : JobCreate} {newId now : Nat} {idd : IdentityData}
    (h : get_identity cat d.identity_id = some idd)
    (hi : d.identity_image ∈ idd.images)
    (hv : d.user_video ∈ uploads) :
    ∃ j, create_job cat uploads db d newId now = .ok (db ++ [j], j) ∧
      j.status = .pending ∧ j.progress = 0 ∧
      j.output_video = none ∧ j.error = none := by
  refine ⟨{ id := newId
            user_video := d.user_video
            identity_id := d.identity_id
            identity_image := d.identity_image
            status := .pending
            progress := 0
            output_video := none
            error := none
            created_at := now }, ?_, rfl, rfl, rfl, rfl⟩
  simp [create_job, h, hi, hv]

theorem create_job_error_store {cat : CatalogState} {uploads : List String}
    {db : List Job} {d : JobCreate} {newId now : Nat} {e : String}
    (h : create_job cat uploads db d newId now = .error e) :
    storeAfter db (create_job cat uploads db d newId now) = db := by
  simp [storeAfter, h]

/- ------------------------------------------------------------------ -/
/- Claim theorems.                                                     -/
/- ------------------------------------------------------------------ -/

/-- C1 counterexample: the claim says the claim operation atomically
transitions the selected job to Processing so that a second concurrent
claim cannot return it.  In the code the claim phase of the dispatcher loop
is a bare SELECT: on the one-job store the first dispatcher's claim returns
the job yet leaves the store unchanged with the job still Pending, and a
second claim run against that store returns the very same job — double
dispatch, refuting the claim at this concrete input. -/
theorem c1_counterexample :
    (dispatcherClaimStep [jobA]).1 = some jobA ∧
    (dispatcherClaimStep [jobA]).2 = [jobA] ∧
    jobA.status = .pending ∧
    (dispatcherClaimStep (dispatcherClaimStep [jobA]).2).1 = some jobA := by
  decide

/-- C1 (amended): the dispatcher's claim query does select the single
oldest Pending job ordered by created_at (never a Processing one), but it
performs no state transition: the store is returned unchanged and the
Processing transition happens later, in a separate transaction inside
process_job, so atomicity — and hence protection against a second
concurrent claim — does not hold and is provided only by the single
dispatcher assumption. -/
theorem c1_select_oldest_pending_nonatomic (db : List Job) (j : Job)
    (h : workerSelect db = some j) :
    j ∈ db ∧ j.status = .pending ∧
    (∀ k ∈ db, k.status = .pending → j.created_at ≤ k.created_at) ∧
    dispatcherClaimStep db = (some j, db) := by
  refine ⟨(workerSelect_pending h).1, (workerSelect_pending h).2,
    workerSelect_oldest h, ?_⟩
  simp [dispatcherClaimStep, h]

/-- C1 witness: the amended claim instantiated on the one-job store. -/
theorem c1_witness :
    jobA ∈ [jobA] ∧ jobA.status = .pending ∧
    (∀ k ∈ [jobA], k.status = .pending → jobA.created_at ≤ k.created_at) ∧
    dispatcherClaimStep [jobA] = (some jobA, [jobA]) :=
  c1_select_oldest_pending_nonatomic [jobA] jobA (by decide)

/-- C2: evaluation of the code at the failing input.  In parallel mode with
both stages succeeding but the Seed-VC future completing first, the
persisted progress sequence of the job is 0, 5, 10, 70, 50, 85, 100 — the
fixed checkpoint 50 of the X-Nemo future is committed after the 70 of the
Seed-VC future, so progress decreases, violating the claimed invariant
(which does hold for the arrival order with X-Nemo first). -/
theorem c2_parallel_progress_decreases :
    (process_job_parallel envAllOk .seedvcFirst jobA).trace.map
      (fun j => j.progress) = [0, 5, 10, 70, 50, 85, 100] ∧
    progressNonDecreasing
      ((process_job_parallel envAllOk .seedvcFirst jobA).trace.map
        (fun j => j.progress)) = false ∧
    (process_job_parallel envAllOk .xnemoFirst jobA).trace.map
      (fun j => j.progress) = [0, 5, 10, 50, 70, 85, 100] ∧
    progressNonDecreasing
      ((process_job_parallel envAllOk .xnemoFirst jobA).trace.map
        (fun j => j.progress)) = true := by
  decide

/-- C3 counterexample: the claim says the aggregated error_detail is joined
in stable stage-name order regardless of arrival order.  With both stages
failing, the two possible as_completed arrival orders produce two different
error_detail strings (completion order, not a fixed stage-name order),
refuting determinism at this concrete input. -/
theorem c3_counterexample :
    (process_job_parallel envBothFail .xnemoFirst jobA).final.error =
      some "xnemo: X-Nemo failed with code 1: cuda oom; seedvc: Seed-VC failed with code 2: bad wav" ∧
    (process_job_parallel envBothFail .seedvcFirst jobA).final.error =
      some "seedvc: Seed-VC failed with code 2: bad wav; xnemo: X-Nemo failed with code 1: cuda oom" ∧
    (process_job_parallel envBothFail .xnemoFirst jobA).final.error ≠
      (process_job_parallel envBothFail .seedvcFirst jobA).final.error := by
  decide

/-- C3 (amended): in concurrent mode the runner does wait for both stages
and, when both fail, the job fails with an aggregate containing every
failed stage's reason joined by "; " — but the join is in completion
arrival order, so the aggregate depends on which stage's result arrived
first. -/
theorem c3_aggregate_in_arrival_order (env : StageEnv) (j0 : Job)
    (e1 e2 : String) (sc : Nat)
    (hv : env.validate = .ok ())
    (hx : run_xnemo_task env j0.id = .error e1)
    (hs : run_seedvc_task env j0.id = (.error e2, sc)) :
    (process_job_parallel env .xnemoFirst j0).final.status = .failed ∧
    (process_job_parallel env .xnemoFirst j0).final.error =
      some (("xnemo: " ++ e1) ++ "; " ++ ("seedvc: " ++ e2)) ∧
    (process_job_parallel env .seedvcFirst j0).final.status = .failed ∧
    (process_job_parallel env .seedvcFirst j0).final.error =
      some (("seedvc: " ++ e2) ++ "; " ++ ("xnemo: " ++ e1)) := by
  simp [process_job_parallel, hv, hx, hs, parallelHandle, joinSep, markFailed]

/-- C3 witness: the amended claim instantiated on the environment in which
both stages fail with non-zero exits. -/
theorem c3_witness :
    (process_job_parallel envBothFail .xnemoFirst jobA).final.status = .failed ∧
    (process_job_parallel envBothFail .xnemoFirst jobA).final.error =
      some (("xnemo: " ++ "X-Nemo failed with code 1: cuda oom") ++ "; " ++
        ("seedvc: " ++ "Seed-VC failed with code 2: bad wav")) ∧
    (process_job_parallel envBothFail .seedvcFirst jobA).final.status = .failed ∧
    (process_job_parallel envBothFail .seedvcFirst jobA).final.error =
      some (("seedvc: " ++ "Seed-VC failed with code 2: bad wav") ++ "; " ++
        ("xnemo: " ++ "X-Nemo failed with code 1: cuda oom")) :=
  c3_aggregate_in_arrival_order envBothFail jobA
    "X-Nemo failed with code 1: cuda oom" "Seed-VC failed with code 2: bad wav" 1
    rfl rfl rfl

/-- C4: in sequential mode, when the Stage A (X-Nemo) invocation fails, the
Seed-VC adapter is never invoked (its invocation count is 0) and the job
ends Failed carrying the Stage A failure message. -/
theorem c4_stage_a_failure_skips_stage_b (env : StageEnv) (j0 : Job)
    (e : String)
    (hv : env.validate = .ok ())
    (hx : run_xnemo_task env j0.id = .error e) :
    (process_job_sequential env j0).seedvcCalls = 0 ∧
    (process_job_sequential env j0).final.status = .failed ∧
    (process_job_sequential env j0).final.error = some e := by
  simp [process_job_sequential, hv, hx, markFailed]

/-- C4 witness: the theorem instantiated on the environment in which the
X-Nemo subprocess exits with code 1. -/
theorem c4_witness :
    (process_job_sequential envBothFail jobA).seedvcCalls = 0 ∧
    (process_job_sequential envBothFail jobA).final.status = .failed ∧
    (process_job_sequential envBothFail jobA).final.error =
      some "X-Nemo failed with code 1: cuda oom" :=
  c4_stage_a_failure_skips_stage_b envBothFail jobA
    "X-Nemo failed with code 1: cuda oom" rfl rfl

/-- C5 counterexample: the claim says the adapter always returns a
StageResult value and never propagates an exception past the adapter
boundary.  In the code a non-zero exit makes XNemoRunner.generate raise
RuntimeError (an Except.error in this embedding) — the failure leaves the
adapter as an exception, not as a returned result value. -/
theorem c5_counterexample :
    raisesException
      (XNemoRunner.generate "out.mp4" 1800
        (.completed 1 ⟨none⟩ "boom" false)) = true ∧
    XNemoRunner.generate "out.mp4" 1800 (.completed 1 ⟨none⟩ "boom" false) =
      .error "X-Nemo failed with code 1: boom" :=
  ⟨rfl, rfl⟩

/-- C5 (amended): the adapters signal failure by raising, not by returning
a result value: generate/convert raise (Except.error) exactly when the
subprocess times out, exits non-zero, or exits zero with neither a success
marker nor an existing output file; every such exception crosses the
adapter boundary and is caught only at the process_job boundary, which
marks the job Failed with the exception message. -/
theorem c5_adapter_raises_on_failure :
    (∀ out t o, (∃ e, XNemoRunner.generate out t o = .error e) ↔
      stageInvocationFails o) ∧
    (∀ out t o, (∃ e, SeedVCRunner.convert out t o = .error e) ↔
      stageInvocationFails o) ∧
    (∀ env j0 e, env.validate = .ok () →
      run_xnemo_task env j0.id = .error e →
      (process_job_sequential env j0).final.status = .failed ∧
      (process_job_sequential env j0).final.error = some e) := by
  refine ⟨?_, ?_, ?_⟩
  · intro out t o
    cases o with
    | timedOut => simp [XNemoRunner.generate, stageInvocationFails]
    | completed c st se ex =>
      rcases st with ⟨mr⟩
      cases mr with
      | none =>
        by_cases hc : c = 0 <;> cases ex <;>
          simp [XNemoRunner.generate, stageInvocationFails, markerSaysSuccess, hc]
      | some r =>
        rcases r with ⟨rs, ro⟩
        cases rs <;> by_cases hc : c = 0 <;> cases ex <;>
          simp [XNemoRunner.generate, stageInvocationFails, markerSaysSuccess, hc]
  · intro out t o
    cases o with
    | timedOut => simp [SeedVCRunner.convert, stageInvocationFails]
    | completed c st se ex =>
      rcases st with ⟨mr⟩
      cases mr with
      | none =>
        by_cases hc : c = 0 <;> cases ex <;>
          simp [SeedVCRunner.convert, stageInvocationFails, markerSaysSuccess, hc]
      | some r =>
        rcases r with ⟨rs, ro⟩
        cases rs <;> by_cases hc : c = 0 <;> cases ex <;>
          simp [SeedVCRunner.convert, stageInvocationFails, markerSaysSuccess, hc]
  · intro env j0 e hv hx
    constructor <;> simp [process_job_sequential, hv, hx, markFailed]

/-- C5 witness: the amended claim instantiated on a timeout outcome and on
the both-fail environment. -/
theorem c5_witness :
    ((∃ e, XNemoRunner.generate "o" 1800 .timedOut = .error e) ↔
      stageInvocationFails .timedOut) ∧
    ((process_job_sequential envBothFail jobA).final.status = .failed ∧
      (process_job_sequential envBothFail jobA).final.error =
        some "X-Nemo failed with code 1: cuda oom") :=
  ⟨c5_adapter_raises_on_failure.1 "o" 1800 .timedOut,
    c5_adapter_raises_on_failure.2.2 envBothFail jobA
      "X-Nemo failed with code 1: cuda oom" rfl rfl⟩

/-- C6 counterexample: the claim says a present success/failure marker is
authoritative.  In the code a marker indicating failure is not: with exit
code 0, a marker whose success field is false, and an existing output file,
the adapter still reports success via the existence fallback. -/
theorem c6_counterexample :
    (StdOut.marker ⟨some ⟨false, none⟩⟩).isSome = true ∧
    markerSaysSuccess ⟨some ⟨false, none⟩⟩ = false ∧
    XNemoRunner.generate "o.mp4" 1800
      (.completed 0 ⟨some ⟨false, none⟩⟩ "" true) = .ok "o.mp4" :=
  ⟨rfl, rfl, rfl⟩

/-- C6 (amended): for an exit-code-0 invocation, a marker indicating
success is authoritative for success; in every other case (marker absent or
marker indicating failure) the adapters fall back to the output-existence
check, and when that also fails the result is the missing-output error. -/
theorem c6_marker_success_or_existence (out : String) (t : Nat)
    (st : StdOut) (se : String) (ex : Bool) :
    (∀ r, st.marker = some r → r.success = true →
      XNemoRunner.generate out t (.completed 0 st se ex) = .ok (r.output.getD out) ∧
      SeedVCRunner.convert out t (.completed 0 st se ex) = .ok (r.output.getD out)) ∧
    (markerSaysSuccess st = false → ex = true →
      XNemoRunner.generate out t (.completed 0 st se ex) = .ok out ∧
      SeedVCRunner.convert out t (.completed 0 st se ex) = .ok out) ∧
    (markerSaysSuccess st = false → ex = false →
      XNemoRunner.generate out t (.completed 0 st se ex) = .error (xnemoMissingMsg out) ∧
      SeedVCRunner.convert out t (.completed 0 st se ex) = .error (seedvcMissingMsg out)) := by
  refine ⟨?_, ?_, ?_⟩
  · intro r hm hs
    constructor <;> simp [XNemoRunner.generate, SeedVCRunner.convert, hm, hs]
  · intro hm hx
    subst hx
    rcases st with ⟨mr⟩
    cases mr with
    | none => constructor <;> simp [XNemoRunner.generate, SeedVCRunner.convert]
    | some r =>
      simp only [markerSaysSuccess] at hm
      constructor <;> simp [XNemoRunner.generate, SeedVCRunner.convert, hm]
  · intro hm hx
    subst hx
    rcases st with ⟨mr⟩
    cases mr with
    | none => constructor <;> simp [XNemoRunner.generate, SeedVCRunner.convert]
    | some r =>
      simp only [markerSaysSuccess] at hm
      constructor <;> simp [XNemoRunner.generate, SeedVCRunner.convert, hm]

/-- C6 witness: the amended claim instantiated on a success marker carrying
an output path, on a marker-free success, and on a marker-free missing
output. -/
theorem c6_witness :
    (XNemoRunner.generate "o" 1800
        (.completed 0 ⟨some ⟨true, some "w"⟩⟩ "" true) =
        .ok ((some "w").getD "o") ∧
      SeedVCRunner.convert "o" 1800
        (.completed 0 ⟨some ⟨true, some "w"⟩⟩ "" true) =
        .ok ((some "w").getD "o")) ∧
    (XNemoRunner.generate "o" 1800 (.completed 0 ⟨none⟩ "" true) = .ok "o" ∧
      SeedVCRunner.convert "o" 1800 (.completed 0 ⟨none⟩ "" true) = .ok "o") ∧
    (XNemoRunner.generate "o" 1800 (.completed 0 ⟨none⟩ "" false) =
        .error (xnemoMissingMsg "o") ∧
      SeedVCRunner.convert "o" 1800 (.completed 0 ⟨none⟩ "" false) =
        .error (seedvcMissingMsg "o")) :=
  ⟨(c6_marker_success_or_existence "o" 1800 ⟨some ⟨true, some "w"⟩⟩ "" true).1
      ⟨true, some "w"⟩ rfl rfl,
    (c6_marker_success_or_existence "o" 1800 ⟨none⟩ "" true).2.1 rfl rfl,
    (c6_marker_success_or_existence "o" 1800 ⟨none⟩ "" false).2.2 rfl rfl⟩

/-- C7: a timeout is raised as a RuntimeError whose message opens with the
fixed timed-out phrase, an indicator that holds of every timeout message
and of no non-zero-exit message (whatever stderr says), for both adapters;
and in sequential mode a Stage A timeout ends the job Failed with the
timeout message as error_detail and the Seed-VC adapter never invoked. -/
theorem c7_timeout_distinguishable :
    (∀ t, isXNemoTimeoutIndicator (xnemoTimeoutMsg t) = true) ∧
    (∀ c s, isXNemoTimeoutIndicator (xnemoExitFailMsg c s) = false) ∧
    (∀ t, isSeedVCTimeoutIndicator (seedvcTimeoutMsg t) = true) ∧
    (∀ c s, isSeedVCTimeoutIndicator (seedvcExitFailMsg c s) = false) ∧
    (∀ out t, XNemoRunner.generate out t .timedOut = .error (xnemoTimeoutMsg t)) ∧
    (∀ out t, SeedVCRunner.convert out t .timedOut = .error (seedvcTimeoutMsg t)) ∧
    (∀ env j0, env.validate = .ok () → env.xnemoOutcome = .timedOut →
      (process_job_sequential env j0).final.status = .failed ∧
      (process_job_sequential env j0).final.error = some (xnemoTimeoutMsg 1800) ∧
      isXNemoTimeoutIndicator (xnemoTimeoutMsg 1800) = true ∧
      (process_job_sequential env j0).seedvcCalls = 0) := by
  refine ⟨xnemoTimeoutMsg_indicator, xnemoExitFailMsg_not_indicator,
    seedvcTimeoutMsg_indicator, seedvcExitFailMsg_not_indicator,
    fun out t => rfl, fun out t => rfl, ?_⟩
  intro env j0 hv ht
  have hx : run_xnemo_task env j0.id = .error (xnemoTimeoutMsg 1800) := by
    simp [run_xnemo_task, ht, XNemoRunner.generate]
  refine ⟨?_, ?_, xnemoTimeoutMsg_indicator 1800, ?_⟩ <;>
    simp [process_job_sequential, hv, hx, markFailed]

/-- C7 witness: the sequential clause instantiated on the environment whose
X-Nemo subprocess times out. -/
theorem c7_witness :
    (process_job_sequential envXnemoTimeout jobA).final.status = .failed ∧
    (process_job_sequential envXnemoTimeout jobA).final.error =
      some (xnemoTimeoutMsg 1800) ∧
    isXNemoTimeoutIndicator (xnemoTimeoutMsg 1800) = true ∧
    (process_job_sequential envXnemoTimeout jobA).seedvcCalls = 0 :=
  c7_timeout_distinguishable.2.2.2.2.2.2 envXnemoTimeout jobA rfl rfl

/-- C8 counterexample: the claim says finalizing a job that is not in
Processing (including finalizing twice) fails loudly rather than silently
overwriting, and that output_ref and error_detail are never both set.  In
the code the terminal commits check nothing: re-running
process_job_sequential on the already-Completed row (reachable, since the
claim transition is not atomic) silently finalizes it again, leaving a
Failed row that still carries output_video — both terminal fields
populated, no error surfaced. -/
theorem c8_counterexample :
    (process_job_sequential envAllOk jobA).final.status = .completed ∧
    (process_job_sequential envAllOk jobA).final.output_video = some "1.mp4" ∧
    (process_job_sequential envValidateFail
      (process_job_sequential envAllOk jobA).final).final.status = .failed ∧
    (process_job_sequential envValidateFail
      (process_job_sequential envAllOk jobA).final).final.output_video =
      some "1.mp4" ∧
    (process_job_sequential envValidateFail
      (process_job_sequential envAllOk jobA).final).final.error =
      some "User video not found: shared_data/uploads/v.mp4" := by
  decide

/-- C8 (amended): within a single sequential run started on a fresh row
(no terminal field set), the terminal commit populates exactly one of
output_video/error — output_video together with Completed, error together
with Failed; but the commits themselves check nothing, so a second
finalization of a non-Processing row silently overwrites (see the
counterexample). -/
theorem c8_terminal_fields_exclusive_single_run (env : StageEnv) (j0 : Job)
    (ho : j0.output_video = none) (he : j0.error = none) :
    ((process_job_sequential env j0).final.status = .completed ∧
      (process_job_sequential env j0).final.output_video =
        some (toString j0.id ++ ".mp4") ∧
      (process_job_sequential env j0).final.error = none) ∨
    ((process_job_sequential env j0).final.status = .failed ∧
      (∃ e, (process_job_sequential env j0).final.error = some e) ∧
      (process_job_sequential env j0).final.output_video = none) := by
  rcases hv : env.validate with e | u
  · right
    refine ⟨?_, ⟨e, ?_⟩, ?_⟩ <;>
      simp [process_job_sequential, hv, markFailed, ho]
  · rcases hx : run_xnemo_task env j0.id with e | x
    · right
      refine ⟨?_, ⟨e, ?_⟩, ?_⟩ <;>
        simp [process_job_sequential, hv, hx, markFailed, ho]
    · rcases hs : run_seedvc_task env j0.id with ⟨e | y, sc⟩
      · right
        refine ⟨?_, ⟨e, ?_⟩, ?_⟩ <;>
          simp [process_job_sequential, hv, hx, hs, markFailed, ho]
      · rcases hc : env.combine with e | u2
        · right
          refine ⟨?_, ⟨e, ?_⟩, ?_⟩ <;>
            simp [process_job_sequential, hv, hx, hs, hc, markFailed, ho]
        · left
          refine ⟨?_, ?_, ?_⟩ <;>
            simp [process_job_sequential, hv, hx, hs, hc, markCompleted, he]

/-- C8 witness: the amended claim instantiated on the fresh pending job in
the all-success environment. -/
theorem c8_witness :
    ((process_job_sequential envAllOk jobA).final.status = .completed ∧
      (process_job_sequential envAllOk jobA).final.output_video =
        some (toString jobA.id ++ ".mp4") ∧
      (process_job_sequential envAllOk jobA).final.error = none) ∨
    ((process_job_sequential envAllOk jobA).final.status = .failed ∧
      (∃ e, (process_job_sequential envAllOk jobA).final.error = some e) ∧
      (process_job_sequential envAllOk jobA).final.output_video = none) :=
  c8_terminal_fields_exclusive_single_run envAllOk jobA rfl rfl

/-- C9: create_job fails synchronously with HTTP 400 (the InvalidInput of
the spec) whenever the identity cannot be resolved, the chosen image is not
in the identity's image set, or the uploaded video is absent, and in every
error case the job table is unchanged (the error is raised before any row
is added); when all three inputs resolve, a Pending row with progress 0 and
no terminal field set is appended. -/
theorem c9_enqueue_validation (cat : CatalogState) (uploads : List String)
    (db : List Job) (d : JobCreate) (newId now : Nat) :
    (get_identity cat d.identity_id = none →
      create_job cat uploads db d newId now = .error "Invalid identity") ∧
    (∀ idd, get_identity cat d.identity_id = some idd →
      d.identity_image ∉ idd.images →
      create_job cat uploads db d newId now = .error "Invalid image for identity") ∧
    (∀ idd, get_identity cat d.identity_id = some idd →
      d.identity_image ∈ idd.images → d.user_video ∉ uploads →
      create_job cat uploads db d newId now = .error "Video not found. Upload first.") ∧
    (∀ e, create_job cat uploads db d newId now = .error e →
      storeAfter db (create_job cat uploads db d newId now) = db) ∧
    (∀ idd, get_identity cat d.identity_id = some idd →
      d.identity_image ∈ idd.images → d.user_video ∈ uploads →
      ∃ j, create_job cat uploads db d newId now = .ok (db ++ [j], j) ∧
        j.status = .pending ∧ j.progress = 0 ∧
        j.output_video = none ∧ j.error = none) := by
  refine ⟨?_, ?_, ?_, ?_, ?_⟩
  · intro h
    exact create_job_no_identity h
  · intro idd h hi
    exact create_job_bad_image h hi
  · intro idd h hi hv
    exact create_job_bad_video h hi hv
  · intro e h
    exact create_job_error_store h
  · intro idd h hi hv
    exact create_job_ok h hi hv

/-- C9 witness: the theorem instantiated on the catalog discovered from the
persona_b disk — an unknown identity is rejected with the table unchanged,
and a fully resolvable request creates the Pending row. -/
theorem c9_witness :
    create_job (startup diskWithPersonaB) ["v.mp4"] []
      ⟨"persona_a", "face1.jpg", "v.mp4"⟩ 7 3 = .error "Invalid identity" ∧
    storeAfter []
      (create_job (startup diskWithPersonaB) ["v.mp4"] []
        ⟨"persona_a", "face1.jpg", "v.mp4"⟩ 7 3) = [] ∧
    (∃ j, create_job (startup diskWithPersonaB) ["v.mp4"] []
        ⟨"persona_b", "photo.jpg", "v.mp4"⟩ 7 3 = .ok ([] ++ [j], j) ∧
      j.status = .pending ∧ j.progress = 0 ∧
      j.output_video = none ∧ j.error = none) :=
  ⟨(c9_enqueue_validation (startup diskWithPersonaB) ["v.mp4"] []
      ⟨"persona_a", "face1.jpg", "v.mp4"⟩ 7 3).1 (by decide),
    (c9_enqueue_validation (startup diskWithPersonaB) ["v.mp4"] []
      ⟨"persona_a", "face1.jpg", "v.mp4"⟩ 7 3).2.2.2.1 "Invalid identity"
      ((c9_enqueue_validation (startup diskWithPersonaB) ["v.mp4"] []
        ⟨"persona_a", "face1.jpg", "v.mp4"⟩ 7 3).1 (by decide)),
    (c9_enqueue_validation (startup diskWithPersonaB) ["v.mp4"] []
      ⟨"persona_b", "photo.jpg", "v.mp4"⟩ 7 3).2.2.2.2
      { name := "Persona B", images := ["photo.jpg"], audio := "voice.wav" }
      (by decide) (by decide) (by decide)⟩

/-- C10: enqueue-time identity and image validation reads only the catalog
snapshot taken at module load (startup): any request whose identity is
absent from the startup snapshot is rejected no matter what is on disk now,
an image missing from the snapshotted identity is likewise rejected, and
after refresh_identities re-scans the disk a request resolvable against the
re-scanned catalog is accepted; the snapshots are exactly the discovery of
the respective disks. -/
theorem c10_snapshot_validation (disk0 disk1 : Disk) (uploads : List String)
    (db : List Job) (d : JobCreate) (newId now : Nat) :
    (get_identity (startup disk0) d.identity_id = none →
      create_job (startup disk0) uploads db d newId now =
        .error "Invalid identity") ∧
    (∀ idd0, get_identity (startup disk0) d.identity_id = some idd0 →
      d.identity_image ∉ idd0.images →
      create_job (startup disk0) uploads db d newId now =
        .error "Invalid image for identity") ∧
    (∀ idd, get_identity (refresh_identities disk1 (startup disk0))
        d.identity_id = some idd →
      d.identity_image ∈ idd.images → d.user_video ∈ uploads →
      ∃ j, create_job (refresh_identities disk1 (startup disk0)) uploads db d
        newId now = .ok (db ++ [j], j)) ∧
    (startup disk0).snapshot = discover_identities disk0 ∧
    (refresh_identities disk1 (startup disk0)).snapshot =
      discover_identities disk1 := by
  refine ⟨?_, ?_, ?_, rfl, rfl⟩
  · intro h
    exact create_job_no_identity h
  · intro idd0 h hi
    exact create_job_bad_image h hi
  · intro idd h hi hv
    obtain ⟨j, hj, _, _, _, _⟩ := create_job_ok h hi hv
    exact ⟨j, hj⟩

/-- C10 witness: with an empty identities directory at startup, persona_b
(added to disk afterwards) is rejected by enqueue; after refresh against
the new disk the same request is accepted. -/
theorem c10_witness :
    create_job (startup diskEmpty) ["v.mp4"] []
      ⟨"persona_b", "photo.jpg", "v.mp4"⟩ 7 3 = .error "Invalid identity" ∧
    (∃ j, create_job (refresh_identities diskWithPersonaB (startup diskEmpty))
      ["v.mp4"] [] ⟨"persona_b", "photo.jpg", "v.mp4"⟩ 7 3 = .ok ([] ++ [j], j)) :=
  ⟨(c10_snapshot_validation diskEmpty diskWithPersonaB ["v.mp4"] []
      ⟨"persona_b", "photo.jpg", "v.mp4"⟩ 7 3).1 (by decide),
    (c10_snapshot_validation diskEmpty diskWithPersonaB ["v.mp4"] []
      ⟨"persona_b", "photo.jpg", "v.mp4"⟩ 7 3).2.2.1
      { name := "Persona B", images := ["photo.jpg"], audio := "voice.wav" }
      (by decide) (by decide) (by decide)⟩

end Fred
